import Mathlib

/-!
Shallow embedding of `gtop` (src/src/main.rs), a terminal GPU dashboard.

Modelling conventions:
* Rust `f32`/`f64` values are embedded as exact rationals (ℚ).  Every
  operation the claims touch (comparison against literal thresholds,
  `clamp`, division of small integers) is order-faithful under this
  embedding, and the concrete constants involved (92.0, 0.90, 0.75,
  15000/16384, …) behave identically in `f32`/`f64` and in ℚ.
* Rust `u32`/`u64` are `Nat`; the `counter as u32` cast in `sample_fake`
  is made explicit as `% 2^32`.  The `tick` counter is an idealised
  monotone `Nat` (at 2 ticks per second a `u64` cannot overflow within
  the program's lifetime).
* `Instant::now()` is nondeterministic input: `sample_fake` takes the
  current instant as an extra `now : Nat` argument, and so does
  `App.on_tick`.
* ratatui widgets are embedded as plain record values.  `Gauge::ratio`
  panics when its argument leaves `[0,1]`; this is the one partiality in
  the render path, so gauge construction returns `Option` and the whole
  `ui` function is `App → Option Frame` (`none` = panic).
* Decimal formatting (`{t:.1}`, `{p:.0}`) is modelled by rounding to the
  nearest tenth/unit.  (Rust breaks ties to even; no claim depends on a
  tie, all sampled constants being exact in both systems.)
-/

/-- Colors used by the dashboard (the relevant subset of ratatui's
`Color` enum). -/
inductive Color where
  | Red
  | Yellow
  | Green
  | DarkGray
deriving DecidableEq, Repr

/-- ratatui `Style`: only the foreground color is ever set by this
program. `Style::default()` has `fg = None`. -/
structure Style where
  fg : Option Color
deriving DecidableEq, Repr

/-- `Style::default()` -/
def Style.default : Style := ⟨none⟩

/-- `Style::default().fg(c)` — the only style constructor the program
uses. -/
def styleFg (c : Color) : Style := ⟨some c⟩

/-- `GpuMetrics` struct (main.rs lines 18–36). `timestamp : Instant` is
embedded as a `Nat` tag. -/
structure GpuMetrics where
  name : String
  temperature_c : Option ℚ
  junction_temp_c : Option ℚ
  mem_temp_c : Option ℚ
  utilization_pct : Option ℚ
  vram_used_mb : Option Nat
  vram_total_mb : Option Nat
  power_w : Option ℚ
  fan_rpm : Option Nat
  core_clock_mhz : Option Nat
  mem_clock_mhz : Option Nat
  timestamp : Nat
deriving DecidableEq, Repr

/-- `fmt_opt` (main.rs 38–40), at the one type it is used at
(`Option<u32>` for the fan line): present value printed, absent value
replaced by the fixed placeholder. -/
def fmt_opt (v : Option Nat) : String :=
  (v.map toString).getD "--"

/-- `fmt_vram` (main.rs 42–48). Note the `(Some(u), None)` arm of the
source produces `"{u} MB / ?"` — with no trailing `MB`. -/
def fmt_vram (used total : Option Nat) : String :=
  match used, total with
  | some u, some t => s!"{u} / {t} MB"
  | some u, none => s!"{u} MB / ?"
  | _, _ => "--"

/-- Rust `f64::clamp(self, lo, hi)` over ℚ (for `lo ≤ hi` the two
definitions agree). -/
def clampQ (x lo hi : ℚ) : ℚ := max lo (min x hi)

/-- `vram_ratio` (main.rs 50–55). -/
def vram_ratio (used total : Option Nat) : ℚ :=
  match used, total with
  | some u, some t => if 0 < t then clampQ ((u : ℚ) / (t : ℚ)) 0 1 else 0
  | _, _ => 0

/-- `pct_ratio` (main.rs 57–59). -/
def pct_ratio (pct : Option ℚ) : ℚ :=
  match pct with
  | some p => clampQ p 0 100 / 100
  | none => 0

/-- `gauge_style` (main.rs 61–69). -/
def gauge_style (r : ℚ) : Style :=
  if r ≥ 0.90 then styleFg Color.Red
  else if r ≥ 0.75 then styleFg Color.Yellow
  else styleFg Color.Green

/-- `temp_style` (main.rs 71–78). -/
def temp_style (temp_c : Option ℚ) : Style :=
  match temp_c with
  | some t =>
      if t ≥ 90 then styleFg Color.Red
      else if t ≥ 80 then styleFg Color.Yellow
      else styleFg Color.Green
  | none => styleFg Color.DarkGray

/-- `power_style` (main.rs 80–87). -/
def power_style (power_w : Option ℚ) : Style :=
  match power_w with
  | some p =>
      if p ≥ 300 then styleFg Color.Red
      else if p ≥ 220 then styleFg Color.Yellow
      else styleFg Color.Green
  | none => styleFg Color.DarkGray

/-- `junction_style` (main.rs 89–96). -/
def junction_style (temp_c : Option ℚ) : Style :=
  match temp_c with
  | some t =>
      if t ≥ 105 then styleFg Color.Red
      else if t ≥ 95 then styleFg Color.Yellow
      else styleFg Color.Green
  | none => styleFg Color.DarkGray

/-- `mem_temp_style` (main.rs 98–105). -/
def mem_temp_style (temp_c : Option ℚ) : Style :=
  match temp_c with
  | some t =>
      if t ≥ 95 then styleFg Color.Red
      else if t ≥ 85 then styleFg Color.Yellow
      else styleFg Color.Green
  | none => styleFg Color.DarkGray

/-- `sample_fake` (main.rs 114–139). `now` stands for `Instant::now()`;
`counter as u32` is `counter % 2^32`; the `f32` constants `0.3`, `0.2`
are the exact rationals `3/10`, `2/10`. -/
def sample_fake (now : Nat) (counter : Nat) : List GpuMetrics :=
  let temp : ℚ := 45 + ((counter % 30 : Nat) : ℚ) * (3/10)
  let util : ℚ := ((counter % 100 : Nat) : ℚ)
  let used : Nat := 1200 + (counter % 2 ^ 32) % 800
  let total : Nat := 16384
  let junction : ℚ := temp + 12 + ((counter % 10 : Nat) : ℚ) * (2/10)
  let mem_temp : ℚ := temp + 6
  let core_clk : Nat := 800 + (counter % 2 ^ 32) % 1600
  let mem_clk : Nat := 1000 + (counter % 2 ^ 32) % 800
  [{ name := "AMD Radeon (mock)"
     temperature_c := some temp
     utilization_pct := some util
     vram_used_mb := some used
     vram_total_mb := some total
     power_w := some (90 + ((counter % 20 : Nat) : ℚ))
     fan_rpm := some (1200 + (counter % 2 ^ 32) % 400)
     junction_temp_c := some junction
     mem_temp_c := some mem_temp
     core_clock_mhz := some core_clk
     mem_clock_mhz := some mem_clk
     timestamp := now }]

/-- crossterm `KeyCode`: the constructors the program matches on, plus
representatives of the remaining variants (`Other` collapses every
constructor `on_key`'s wildcard arm treats alike). -/
inductive KeyCode where
  | Char : Char → KeyCode
  | Esc : KeyCode
  | Enter : KeyCode
  | Backspace : KeyCode
  | F : Nat → KeyCode
  | Other : Nat → KeyCode
deriving DecidableEq, Repr

/-- `App` struct (main.rs 141–145). -/
structure App where
  running : Bool
  tick : Nat
  metrics : List GpuMetrics
deriving DecidableEq, Repr

/-- `App::new` (main.rs 148–154). -/
def App.new : App := { running := true, tick := 0, metrics := [] }

/-- `App::on_tick` abstracted over the sampler backend (the spec's
`Sampler.sample` contract): replace `metrics` with the sample taken at
the current `tick`, then increment `tick`. -/
def App.onTickWith (sampler : Nat → List GpuMetrics) (a : App) : App :=
  { a with metrics := sampler a.tick, tick := a.tick + 1 }

/-- `App::on_tick` (main.rs 156–159), wired to `sample_fake` exactly as
in the source; `now` is the instant the sampler stamps. -/
def App.on_tick (now : Nat) (a : App) : App :=
  App.onTickWith (sample_fake now) a

/-- `App::on_key` (main.rs 161–166). The source's or-pattern
`KeyCode::Char('q') | KeyCode::Esc` is rendered as a literal test on the
`Char` payload. -/
def App.on_key (a : App) (code : KeyCode) : App :=
  match code with
  | KeyCode.Char c => if c = 'q' then { a with running := false } else a
  | KeyCode.Esc => { a with running := false }
  | _ => a

/-- One-decimal formatting, modelling Rust's `format!("{t:.1}")` by
rounding to the nearest tenth (see header note on ties). -/
def fmtQ1 (q : ℚ) : String :=
  let n : Int := round (q * 10)
  let sign : String := if n < 0 then "-" else ""
  s!"{sign}{n.natAbs / 10}.{n.natAbs % 10}"

/-- Integer formatting, modelling Rust's `format!("{p:.0}")` by rounding
to the nearest unit. -/
def fmtQ0 (q : ℚ) : String := toString (round q : Int)

/-- A rendered ratatui `Span`: content plus style (`Span::raw` carries
the default style). -/
structure Span where
  content : String
  style : Style
deriving DecidableEq, Repr

/-- `Span::raw` -/
def Span.raw (s : String) : Span := ⟨s, Style.default⟩

/-- `Span::styled` -/
def Span.styled (s : String) (st : Style) : Span := ⟨s, st⟩

/-- The block of body lines `ui` pushes for the GPU at index `i`
(main.rs 246–289): name line, four styled metric lines, clocks line,
fan line. -/
def gpuLines (i : Nat) (gpu : GpuMetrics) : List (List Span) :=
  let name := gpu.name
  let temp_str := (gpu.temperature_c.map fmtQ1).getD "--"
  let junction_str := (gpu.junction_temp_c.map fmtQ1).getD "--"
  let mem_str := (gpu.mem_temp_c.map fmtQ1).getD "--"
  let power_str := (gpu.power_w.map fmtQ1).getD "--"
  let core_str := (gpu.core_clock_mhz.map toString).getD "--"
  let mem_clk_str := (gpu.mem_clock_mhz.map toString).getD "--"
  let fan_str := fmt_opt gpu.fan_rpm
  [ [Span.raw s!"GPU {i}: {name}"],
    [Span.raw "Temp: ", Span.styled s!"{temp_str} °C" (temp_style gpu.temperature_c)],
    [Span.raw "Junction: ", Span.styled s!"{junction_str} °C" (junction_style gpu.junction_temp_c)],
    [Span.raw "Mem Temp: ", Span.styled s!"{mem_str} °C" (mem_temp_style gpu.mem_temp_c)],
    [Span.raw "Power: ", Span.styled s!"{power_str} W" (power_style gpu.power_w)],
    [Span.raw s!"Clocks: core {core_str} MHz | mem {mem_clk_str} MHz"],
    [Span.raw s!"Fan: {fan_str} RPM"] ]

/-- The text region of the body: per-GPU blocks in `metrics` order, one
blank line between consecutive GPUs (main.rs 239–290). -/
def renderBody (metrics : List GpuMetrics) : List (List Span) :=
  (metrics.enum.map
    (fun p => (if 0 < p.1 then [[Span.raw ""]] else []) ++ gpuLines p.1 p.2)).join

/-- Ratio and label of the VRAM gauge, from GPU 0 when present
(main.rs 296–307). -/
def vramGaugeData (gpu0 : Option GpuMetrics) : ℚ × String :=
  match gpu0 with
  | some gpu =>
      (vram_ratio gpu.vram_used_mb gpu.vram_total_mb,
       match gpu.vram_used_mb, gpu.vram_total_mb with
       | some u, some t => s!"VRAM {u} / {t} MB"
       | some u, none => s!"VRAM {u} / ? MB"
       | _, _ => "VRAM --")
  | none => (0, "VRAM --")

/-- Ratio and label of the utilization gauge, from GPU 0 when present
(main.rs 318–328). -/
def utilGaugeData (gpu0 : Option GpuMetrics) : ℚ × String :=
  match gpu0 with
  | some gpu =>
      (pct_ratio gpu.utilization_pct,
       match gpu.utilization_pct with
       | some u => s!"GPU Util {fmtQ0 u}%"
       | none => "GPU Util --")
  | none => (0, "GPU Util --")

/-- A rendered gauge: its title, `gauge_style` color, fill ratio and
label. -/
structure GaugeW where
  title : String
  style : Style
  ratio : ℚ
  label : String
deriving DecidableEq, Repr

/-- Gauge construction.  ratatui's `Gauge::ratio` panics unless the
ratio lies in `[0,1]`; `none` models that panic. -/
def mkGauge (title : String) (st : Style) (r : ℚ) (label : String) : Option GaugeW :=
  if 0 ≤ r ∧ r ≤ 1 then some ⟨title, st, r, label⟩ else none

/-- The header paragraph text (main.rs 219). -/
def headerText : String := "gtop — mock metrics mode (MacBook) — q to quit"

/-- The footer paragraph text (main.rs 341). -/
def footerText (tick : Nat) : String := s!"Tick: {tick}   (data is mocked)"

/-- One rendered frame: header text, body text region, the two gauges,
footer text. -/
structure Frame where
  header : String
  bodyLines : List (List Span)
  utilGauge : GaugeW
  vramGauge : GaugeW
  footer : String
deriving DecidableEq, Repr

/-- `ui` (main.rs 211–344) as a pure function of the `App` state;
`none` models a panic while building a gauge. -/
def ui (app : App) : Option Frame :=
  match mkGauge "VRAM Usage" (gauge_style (vramGaugeData app.metrics.head?).1)
          (vramGaugeData app.metrics.head?).1 (vramGaugeData app.metrics.head?).2,
        mkGauge "Utilization" (gauge_style (utilGaugeData app.metrics.head?).1)
          (utilGaugeData app.metrics.head?).1 (utilGaugeData app.metrics.head?).2 with
  | some vg, some ug =>
      some { header := headerText
             bodyLines := renderBody app.metrics
             utilGauge := ug
             vramGauge := vg
             footer := footerText app.tick }
  | _, _ => none

/-- Style of the second span of the second body line (the styled half of
the first GPU's temperature line), when the frame exists. -/
def frameTempStyle (o : Option Frame) : Option Style :=
  match o with
  | some f =>
      match f.bodyLines.get? 1 with
      | some spans =>
          match spans.get? 1 with
          | some sp => some sp.style
          | none => none
      | none => none
  | none => none

/-- Fill ratio of the VRAM gauge, when the frame exists. -/
def frameVramFill (o : Option Frame) : Option ℚ :=
  match o with
  | some f => some f.vramGauge.ratio
  | none => none

/-- Style of the VRAM gauge, when the frame exists. -/
def frameVramStyle (o : Option Frame) : Option Style :=
  match o with
  | some f => some f.vramGauge.style
  | none => none

/-- Footer text of the frame, when it exists. -/
def frameFooter (o : Option Frame) : Option String :=
  match o with
  | some f => some f.footer
  | none => none

/-- Whether the footer text contains the character `1` (membership in
its character sequence), when the frame exists. -/
def frameFooterHasOne (o : Option Frame) : Option Bool :=
  match o with
  | some f => some (f.footer.data.contains '1')
  | none => none

/-- The single device of the C2 end-to-end scenario:
`temperature_c = Some(92.0)`, `vram_used_mb = Some(15000)`,
`vram_total_mb = Some(16384)`, every other reading absent. -/
def scenarioGpu : GpuMetrics :=
  { name := "Scenario GPU"
    temperature_c := some 92
    junction_temp_c := none
    mem_temp_c := none
    utilization_pct := none
    vram_used_mb := some 15000
    vram_total_mb := some 16384
    power_w := none
    fan_rpm := none
    core_clock_mhz := none
    mem_clock_mhz := none
    timestamp := 0 }

/-- The C2 scenario sampler: one device, as above, at every counter. -/
def scenarioSample (counter : Nat) : List GpuMetrics := [scenarioGpu]

/-- The C2 scenario state: the initial state after the one forced
`on_tick()` with the scenario sampler. -/
def scenarioApp : App := App.onTickWith scenarioSample App.new

/-- All fields of a sample except `timestamp`, for stating determinism
of the sampler modulo call time. -/
def GpuMetrics.sansTimestamp (g : GpuMetrics) :
    String × Option ℚ × Option ℚ × Option ℚ × Option ℚ × Option Nat × Option Nat ×
      Option ℚ × Option Nat × Option Nat × Option Nat :=
  (g.name, g.temperature_c, g.junction_temp_c, g.mem_temp_c, g.utilization_pct,
   g.vram_used_mb, g.vram_total_mb, g.power_w, g.fan_rpm, g.core_clock_mhz, g.mem_clock_mhz)

lemma clampQ_unit_mem (x : ℚ) : 0 ≤ clampQ x 0 1 ∧ clampQ x 0 1 ≤ 1 :=
  ⟨le_max_left _ _, max_le (by norm_num) (min_le_right _ _)⟩

lemma vram_ratio_mem (u t : Option Nat) : 0 ≤ vram_ratio u t ∧ vram_ratio u t ≤ 1 := by
  cases u with
  | none => exact ⟨le_refl 0, zero_le_one⟩
  | some u =>
    cases t with
    | none => exact ⟨le_refl 0, zero_le_one⟩
    | some t =>
      by_cases h : 0 < t
      · simpa [vram_ratio, h] using clampQ_unit_mem ((u : ℚ) / (t : ℚ))
      · simp [vram_ratio, h]

lemma pct_ratio_mem (p : Option ℚ) : 0 ≤ pct_ratio p ∧ pct_ratio p ≤ 1 := by
  cases p with
  | none => exact ⟨le_refl 0, zero_le_one⟩
  | some p =>
    have h0 : (0 : ℚ) ≤ clampQ p 0 100 := le_max_left _ _
    have h1 : clampQ p 0 100 ≤ 100 := max_le (by norm_num) (min_le_right _ _)
    constructor
    · simpa [pct_ratio] using div_nonneg h0 (by norm_num)
    · simp only [pct_ratio]
      rw [div_le_one (by norm_num)]
      exact h1

lemma vramGaugeData_mem (g : Option GpuMetrics) :
    0 ≤ (vramGaugeData g).1 ∧ (vramGaugeData g).1 ≤ 1 := by
  cases g with
  | none => exact ⟨le_refl 0, zero_le_one⟩
  | some gpu => simpa [vramGaugeData] using vram_ratio_mem gpu.vram_used_mb gpu.vram_total_mb

lemma utilGaugeData_mem (g : Option GpuMetrics) :
    0 ≤ (utilGaugeData g).1 ∧ (utilGaugeData g).1 ≤ 1 := by
  cases g with
  | none => exact ⟨le_refl 0, zero_le_one⟩
  | some gpu => simpa [utilGaugeData] using pct_ratio_mem gpu.utilization_pct

lemma mkGauge_eq (title : String) (st : Style) (r : ℚ) (label : String)
    (h0 : 0 ≤ r) (h1 : r ≤ 1) :
    mkGauge title st r label = some ⟨title, st, r, label⟩ := by
  simp [mkGauge, h0, h1]

lemma styleChain_red (hi lo t : ℚ) :
    (if t ≥ hi then styleFg Color.Red
     else if t ≥ lo then styleFg Color.Yellow
     else styleFg Color.Green) = styleFg Color.Red ↔ t ≥ hi := by
  split_ifs with h1 h2 <;> simp [styleFg, h1]

lemma styleChain_yellow (hi lo t : ℚ) :
    (if t ≥ hi then styleFg Color.Red
     else if t ≥ lo then styleFg Color.Yellow
     else styleFg Color.Green) = styleFg Color.Yellow ↔ lo ≤ t ∧ t < hi := by
  split_ifs with h1 h2
  · simp only [styleFg, Style.mk.injEq, Option.some.injEq]
    constructor
    · intro hc; cases hc
    · rintro ⟨-, h⟩; exact absurd h1 (not_le.mpr h)
  · simp only [styleFg, Style.mk.injEq, Option.some.injEq, true_iff, eq_self_iff_true]
    exact ⟨h2, lt_of_not_ge h1⟩
  · simp only [styleFg, Style.mk.injEq, Option.some.injEq]
    constructor
    · intro hc; cases hc
    · rintro ⟨h, -⟩; exact absurd h (by exact h2)

lemma styleChain_green (hi lo t : ℚ) (hlh : lo < hi) :
    (if t ≥ hi then styleFg Color.Red
     else if t ≥ lo then styleFg Color.Yellow
     else styleFg Color.Green) = styleFg Color.Green ↔ t < lo := by
  split_ifs with h1 h2
  · simp only [styleFg, Style.mk.injEq, Option.some.injEq]
    constructor
    · intro hc; cases hc
    · intro h; exact absurd h (not_lt.mpr (le_trans hlh.le h1))
  · simp only [styleFg, Style.mk.injEq, Option.some.injEq]
    constructor
    · intro hc; cases hc
    · intro h; exact absurd h (not_lt.mpr h2)
  · simp only [styleFg, Style.mk.injEq, Option.some.injEq, true_iff, eq_self_iff_true]
    exact lt_of_not_ge h2

lemma styleChain_ne_gray (hi lo t : ℚ) :
    (if t ≥ hi then styleFg Color.Red
     else if t ≥ lo then styleFg Color.Yellow
     else styleFg Color.Green) ≠ styleFg Color.DarkGray := by
  split_ifs <;> simp [styleFg]

/-- C1: in any state with `running = true`, `on_tick` replaces `metrics`
wholesale with the sampler's output at the pre-increment counter value,
increments `tick` by exactly 1, and leaves `running` unchanged. -/
theorem on_tick_spec (a : App) (now : Nat) (h : a.running = true) :
    (a.on_tick now).metrics = sample_fake now a.tick ∧
    (a.on_tick now).tick = a.tick + 1 ∧
    (a.on_tick now).running = a.running :=
  ⟨rfl, rfl, rfl⟩

/-- Witness for C1 at the initial state. -/
theorem on_tick_spec_witness :
    (App.new.on_tick 7).metrics = sample_fake 7 App.new.tick ∧
    (App.new.on_tick 7).tick = App.new.tick + 1 ∧
    (App.new.on_tick 7).running = App.new.running :=
  on_tick_spec App.new 7 rfl

/-- C4: with `running = true`, `on_key code` turns `running` off exactly
when `code` is the character `q` or the escape key, and any other key
leaves `running` unchanged. -/
theorem on_key_quit_spec (a : App) (code : KeyCode) (h : a.running = true) :
    ((a.on_key code).running = false ↔ code = KeyCode.Char 'q' ∨ code = KeyCode.Esc) ∧
    (code ≠ KeyCode.Char 'q' → code ≠ KeyCode.Esc → (a.on_key code).running = a.running) := by
  cases code
  case Char c => by_cases hc : c = 'q' <;> simp [App.on_key, hc, h]
  all_goals simp [App.on_key, h]

/-- Witness for C4 at the initial state and the Enter key. -/
theorem on_key_quit_spec_witness :
    ((App.new.on_key KeyCode.Enter).running = false ↔
      KeyCode.Enter = KeyCode.Char 'q' ∨ KeyCode.Enter = KeyCode.Esc) ∧
    (KeyCode.Enter ≠ KeyCode.Char 'q' → KeyCode.Enter ≠ KeyCode.Esc →
      (App.new.on_key KeyCode.Enter).running = App.new.running) :=
  on_key_quit_spec App.new KeyCode.Enter rfl

/-- C9: the Stopped state is terminal — from any state with
`running = false`, neither `on_tick` nor `on_key` (for any key) ever
turns `running` back on. -/
theorem stopped_terminal_spec (a : App) (now : Nat) (code : KeyCode) (h : a.running = false) :
    (a.on_tick now).running = false ∧ (a.on_key code).running = false := by
  refine ⟨h, ?_⟩
  cases code
  case Char c => by_cases hc : c = 'q' <;> simp [App.on_key, hc, h]
  all_goals simp [App.on_key, h]

/-- Witness for C9 at a concrete stopped state and the Escape key. -/
theorem stopped_terminal_spec_witness :
    ((App.mk false 3 []).on_tick 0).running = false ∧
    ((App.mk false 3 []).on_key KeyCode.Esc).running = false :=
  stopped_terminal_spec (App.mk false 3 []) 0 KeyCode.Esc rfl

/-- C10: `on_key` never touches `tick` or `metrics`, whatever the state
and the key (quit keys included); `running` is the only field it can
modify. -/
theorem on_key_frame_spec (a : App) (code : KeyCode) :
    (a.on_key code).tick = a.tick ∧ (a.on_key code).metrics = a.metrics := by
  cases code
  case Char c => by_cases hc : c = 'q' <;> simp [App.on_key, hc]
  all_goals simp [App.on_key]

/-- C8: the sampler is deterministic in its counter argument except for
the timestamp — two calls at the same counter (any two instants) agree
in length and on every field other than `timestamp`. -/
theorem sample_fake_deterministic (now₁ now₂ counter : Nat) :
    (sample_fake now₁ counter).length = (sample_fake now₂ counter).length ∧
    (sample_fake now₁ counter).map GpuMetrics.sansTimestamp =
      (sample_fake now₂ counter).map GpuMetrics.sansTimestamp :=
  ⟨rfl, rfl⟩

/-- C3 counterexample: the used-only arm of `fmt_vram` yields
`"15000 MB / ?"`, not the claimed `"15000 MB / ? MB"`. -/
theorem fmt_vram_used_only_cex : fmt_vram (some 15000) none ≠ "15000 MB / ? MB" := by
  decide

/-- C3 (amended): `fmt_vram` yields `"U / T MB"` when both halves are
present, `"U MB / ?"` (no trailing `MB`) when only `used` is present,
and the fixed placeholder `"--"` otherwise (neither present, and also
total-only). -/
theorem fmt_vram_spec :
    (∀ u t : Nat, fmt_vram (some u) (some t) = s!"{u} / {t} MB") ∧
    (∀ u : Nat, fmt_vram (some u) none = s!"{u} MB / ?") ∧
    fmt_vram none none = "--" ∧
    (∀ t : Nat, fmt_vram none (some t) = "--") :=
  ⟨fun _ _ => rfl, fun _ => rfl, rfl, fun _ => rfl⟩

/-- C5: both gauge ratios always land in `[0,1]`; `vram_ratio` is the
clamped quotient when both halves are present with positive total
(`20000/16384` clamps to exactly 1) and `0` in every other case;
`pct_ratio` is `clamp(pct,0,100)/100` when present (`150` gives 1) and
`0` when absent. -/
theorem ratio_bounds_spec :
    (∀ u t : Option Nat, 0 ≤ vram_ratio u t ∧ vram_ratio u t ≤ 1) ∧
    (∀ u t : Nat, 0 < t →
      vram_ratio (some u) (some t) = clampQ ((u : ℚ) / (t : ℚ)) 0 1) ∧
    (∀ u : Nat, vram_ratio (some u) none = 0) ∧
    (∀ t : Option Nat, vram_ratio none t = 0) ∧
    (∀ u : Nat, vram_ratio (some u) (some 0) = 0) ∧
    vram_ratio (some 20000) (some 16384) = 1 ∧
    (∀ p : Option ℚ, 0 ≤ pct_ratio p ∧ pct_ratio p ≤ 1) ∧
    (∀ p : ℚ, pct_ratio (some p) = clampQ p 0 100 / 100) ∧
    pct_ratio none = 0 ∧
    pct_ratio (some 150) = 1 := by
  refine ⟨vram_ratio_mem, ?_, fun _ => rfl, fun _ => rfl, fun _ => rfl,
    by norm_num [vram_ratio, clampQ, min_def, max_def],
    pct_ratio_mem, fun _ => rfl, rfl,
    by norm_num [pct_ratio, clampQ, min_def, max_def]⟩
  intro u t ht
  simp [vram_ratio, ht]

/-- Witness for C5's conditional clause at `used = 15000`,
`total = 16384`. -/
theorem ratio_bounds_spec_witness :
    vram_ratio (some 15000) (some 16384) =
      clampQ (((15000 : Nat) : ℚ) / ((16384 : Nat) : ℚ)) 0 1 :=
  ratio_bounds_spec.2.1 15000 16384 (by norm_num)

/-- C6: each of the four severity classifiers yields the neutral/gray
style exactly on absent input, and otherwise red / yellow / green
exactly according to its two thresholds (temp 90/80, junction 105/95,
mem 95/85, power 300/220). -/
theorem severity_tier_spec :
    (∀ x : Option ℚ, temp_style x = styleFg Color.DarkGray ↔ x = none) ∧
    (∀ t : ℚ, temp_style (some t) = styleFg Color.Red ↔ 90 ≤ t) ∧
    (∀ t : ℚ, temp_style (some t) = styleFg Color.Yellow ↔ 80 ≤ t ∧ t < 90) ∧
    (∀ t : ℚ, temp_style (some t) = styleFg Color.Green ↔ t < 80) ∧
    (∀ x : Option ℚ, junction_style x = styleFg Color.DarkGray ↔ x = none) ∧
    (∀ t : ℚ, junction_style (some t) = styleFg Color.Red ↔ 105 ≤ t) ∧
    (∀ t : ℚ, junction_style (some t) = styleFg Color.Yellow ↔ 95 ≤ t ∧ t < 105) ∧
    (∀ t : ℚ, junction_style (some t) = styleFg Color.Green ↔ t < 95) ∧
    (∀ x : Option ℚ, mem_temp_style x = styleFg Color.DarkGray ↔ x = none) ∧
    (∀ t : ℚ, mem_temp_style (some t) = styleFg Color.Red ↔ 95 ≤ t) ∧
    (∀ t : ℚ, mem_temp_style (some t) = styleFg Color.Yellow ↔ 85 ≤ t ∧ t < 95) ∧
    (∀ t : ℚ, mem_temp_style (some t) = styleFg Color.Green ↔ t < 85) ∧
    (∀ x : Option ℚ, power_style x = styleFg Color.DarkGray ↔ x = none) ∧
    (∀ p : ℚ, power_style (some p) = styleFg Color.Red ↔ 300 ≤ p) ∧
    (∀ p : ℚ, power_style (some p) = styleFg Color.Yellow ↔ 220 ≤ p ∧ p < 300) ∧
    (∀ p : ℚ, power_style (some p) = styleFg Color.Green ↔ p < 220) := by
  refine ⟨?_, ?_, ?_, ?_, ?_, ?_, ?_, ?_, ?_, ?_, ?_, ?_, ?_, ?_, ?_, ?_⟩
  · intro x
    cases x with
    | none => simp [temp_style]
    | some t => simp [temp_style, styleChain_ne_gray 90 80 t]
  · intro t; simpa [temp_style, ge_iff_le] using styleChain_red 90 80 t
  · intro t; simpa [temp_style] using styleChain_yellow 90 80 t
  · intro t; simpa [temp_style] using styleChain_green 90 80 t (by norm_num)
  · intro x
    cases x with
    | none => simp [junction_style]
    | some t => simp [junction_style, styleChain_ne_gray 105 95 t]
  · intro t; simpa [junction_style, ge_iff_le] using styleChain_red 105 95 t
  · intro t; simpa [junction_style] using styleChain_yellow 105 95 t
  · intro t; simpa [junction_style] using styleChain_green 105 95 t (by norm_num)
  · intro x
    cases x with
    | none => simp [mem_temp_style]
    | some t => simp [mem_temp_style, styleChain_ne_gray 95 85 t]
  · intro t; simpa [mem_temp_style, ge_iff_le] using styleChain_red 95 85 t
  · intro t; simpa [mem_temp_style] using styleChain_yellow 95 85 t
  · intro t; simpa [mem_temp_style] using styleChain_green 95 85 t (by norm_num)
  · intro x
    cases x with
    | none => simp [power_style]
    | some p => simp [power_style, styleChain_ne_gray 300 220 p]
  · intro p; simpa [power_style, ge_iff_le] using styleChain_red 300 220 p
  · intro p; simpa [power_style] using styleChain_yellow 300 220 p
  · intro p; simpa [power_style] using styleChain_green 300 220 p (by norm_num)

/-- C7: the render function is total — for every state a frame is
produced (gauge ratios never leave `[0,1]`, so gauge construction never
panics) — and on empty `metrics` both gauges render at ratio 0 with
placeholder labels and the text region holds no device lines. -/
theorem ui_total_spec (app : App) :
    (ui app).isSome = true ∧
    (app.metrics = [] →
      ui app = some { header := headerText
                      bodyLines := []
                      utilGauge := ⟨"Utilization", styleFg Color.Green, 0, "GPU Util --"⟩
                      vramGauge := ⟨"VRAM Usage", styleFg Color.Green, 0, "VRAM --"⟩
                      footer := footerText app.tick }) := by
  constructor
  · have hv := vramGaugeData_mem app.metrics.head?
    have hu := utilGaugeData_mem app.metrics.head?
    unfold ui
    rw [mkGauge_eq _ _ _ _ hv.1 hv.2, mkGauge_eq _ _ _ _ hu.1 hu.2]
    rfl
  · intro h
    have hg : gauge_style 0 = styleFg Color.Green := by norm_num [gauge_style]
    unfold ui
    rw [h]
    simp only [List.head?_nil, vramGaugeData, utilGaugeData, hg]
    rw [mkGauge_eq _ _ _ _ (le_refl 0) zero_le_one,
      mkGauge_eq _ _ _ _ (le_refl 0) zero_le_one]
    rfl

/-- Witness for C7's empty-metrics clause at the initial state. -/
theorem ui_total_spec_witness :
    ui App.new = some { header := headerText
                        bodyLines := []
                        utilGauge := ⟨"Utilization", styleFg Color.Green, 0, "GPU Util --"⟩
                        vramGauge := ⟨"VRAM Usage", styleFg Color.Green, 0, "VRAM --"⟩
                        footer := footerText App.new.tick } :=
  (ui_total_spec App.new).2 rfl

lemma scenario_ui_eq :
    ui scenarioApp = some
      { header := headerText
        bodyLines := renderBody [scenarioGpu]
        utilGauge := ⟨"Utilization", gauge_style (pct_ratio none), pct_ratio none, "GPU Util --"⟩
        vramGauge := ⟨"VRAM Usage", gauge_style (vram_ratio (some 15000) (some 16384)),
          vram_ratio (some 15000) (some 16384), "VRAM 15000 / 16384 MB"⟩
        footer := footerText 1 } := by
  have hv : (0 : ℚ) ≤ (vramGaugeData scenarioApp.metrics.head?).1 ∧
      (vramGaugeData scenarioApp.metrics.head?).1 ≤ 1 :=
    vram_ratio_mem (some 15000) (some 16384)
  have hu : (0 : ℚ) ≤ (utilGaugeData scenarioApp.metrics.head?).1 ∧
      (utilGaugeData scenarioApp.metrics.head?).1 ≤ 1 :=
    pct_ratio_mem none
  unfold ui
  rw [mkGauge_eq _ _ _ _ hv.1 hv.2, mkGauge_eq _ _ _ _ hu.1 hu.2]
  rfl

/-- C2 counterexample: after the forced tick of the scenario the footer
already reads `Tick: 1`, so the rendered footer text does contain the
character `1`, contradicting the claim that it appears nowhere. -/
theorem scenario_footer_cex : frameFooterHasOne (ui scenarioApp) = some true := by
  rw [scenario_ui_eq]
  rfl

/-- C2 (amended): in the forced-tick scenario
(`temperature_c = Some(92.0)`, `vram_used_mb = Some(15000)`,
`vram_total_mb = Some(16384)`), the temperature line renders in
Critical (red) styling and the VRAM gauge at ratio `15000/16384`
(≈ 0.915) in Critical (red) styling, while the footer text is
`"Tick: 1   (data is mocked)"` — it contains `1` because `tick` was
already incremented when the frame draws, the displayed sample being the
one taken at counter 0. -/
theorem scenario_render_spec :
    frameTempStyle (ui scenarioApp) = some (styleFg Color.Red) ∧
    frameVramFill (ui scenarioApp) = some (15000 / 16384 : ℚ) ∧
    frameVramStyle (ui scenarioApp) = some (styleFg Color.Red) ∧
    frameFooter (ui scenarioApp) = some "Tick: 1   (data is mocked)" := by
  have hr : vram_ratio (some 15000) (some 16384) = 15000 / 16384 := by
    norm_num [vram_ratio, clampQ, min_def, max_def]
  have hg : gauge_style ((15000 : ℚ) / 16384) = styleFg Color.Red := by
    norm_num [gauge_style]
  refine ⟨?_, ?_, ?_, ?_⟩
  · rw [scenario_ui_eq]
    show some (temp_style (some 92)) = some (styleFg Color.Red)
    norm_num [temp_style]
  · rw [scenario_ui_eq]
    show some (vram_ratio (some 15000) (some 16384)) = some ((15000 : ℚ) / 16384)
    rw [hr]
  · rw [scenario_ui_eq]
    show some (gauge_style (vram_ratio (some 15000) (some 16384))) = some (styleFg Color.Red)
    rw [hr, hg]
  · rw [scenario_ui_eq]
    rfl
